import Mathlib

/-!
Verification of the chain-training driver functions of kaldi's
src/chain/chain-training.cc against the natural-language specification.

The drivers under verification are ComputeChainObjfAndDeriv (dispatching to a
standard path and an end-to-end path ComputeChainObjfAndDerivE2e),
ComputeKLObjfAndDeriv, and ComputeChainSmbrObjfAndDeriv.  BaseFloat matrices
are modelled as dense rational matrices; BaseFloat scalars where IEEE
non-finite values matter (the forward log-likelihoods and the objective) are
modelled by an extended-float type EF with explicit plus-infinity,
minus-infinity and NaN values.

The numerator and denominator forward-backward computations
(NumeratorComputation, GenericNumeratorComputation, DenominatorComputation,
DenominatorSmbrComputation) live in other translation units that are not part
of the sources; following the specification, their results are abstracted as
oracle records whose fields are universally quantified in the theorems.
-/

namespace ChainTraining

/-- Dense R-by-P rational matrix, modelling CuMatrix of BaseFloat with R rows
and P columns. -/
abbrev Mat (R P : ℕ) := Fin R → Fin P → ℚ

namespace Mat

/-- The all-zero matrix (result of SetZero or a zero-initializing Resize). -/
def zero (R P : ℕ) : Mat R P := fun _ _ => 0

/-- Entrywise sum of two matrices (AddMat with scale 1). -/
def add {R P : ℕ} (A B : Mat R P) : Mat R P := fun r c => A r c + B r c

/-- Matrix scaled entrywise by a rational (Scale, or the scale factor of
AddMat and CopyFromMat-then-Scale). -/
def smul {R P : ℕ} (a : ℚ) (A : Mat R P) : Mat R P := fun r c => a * A r c

/-- TraceMatMat(M, M, kTrans): the squared Frobenius norm of M. -/
def frob {R P : ℕ} (A : Mat R P) : ℚ := ∑ r, ∑ c, A r c * A r c

/-- Sum of all entries (CuMatrix::Sum). -/
def total {R P : ℕ} (A : Mat R P) : ℚ := ∑ r, ∑ c, A r c

/-- Entrywise map (used for ApplyExp with an abstract exponential). -/
def emap {R P : ℕ} (f : ℚ → ℚ) (A : Mat R P) : Mat R P := fun r c => f (A r c)

/-- Row sums (AddColSumMat with scale 1 into a fresh vector). -/
def rowSum {R P : ℕ} (A : Mat R P) : Fin R → ℚ := fun r => ∑ c, A r c

/-- Modelled from the spec: CuMatrixBase::CopyCols, whose implementation is
not among the sources.  Entry (r, c) of the result is src(r, idx c) when
idx c is a valid column index and 0 when idx c is -1 (out-of-range negative
indices also give 0). -/
def copyCols {R P : ℕ} (src : Mat R P) (idx : Fin P → ℤ) : Mat R P :=
  fun r c =>
    if h : 0 ≤ idx c ∧ idx c < (P : ℤ) then src r ⟨(idx c).toNat, by omega⟩
    else 0

/-- Modelled from the spec: CuMatrixBase::CopyColsFromVec with an index
vector, whose implementation is not among the sources.  Per the spec it
broadcasts the vector into every column whose index entry is not -1 and
leaves the remaining columns unchanged. -/
def copyColsFromVec {R P : ℕ} (A : Mat R P) (v : Fin R → ℚ) (idx : Fin P → ℤ) :
    Mat R P :=
  fun r c => if idx c = -1 then A r c else v r

end Mat

/-- Extended BaseFloat scalar: a finite rational or one of the IEEE
non-finite values. -/
inductive EF where
  | fin (q : ℚ)
  | pinf
  | ninf
  | nan
deriving DecidableEq

namespace EF

/-- True exactly on finite values. -/
def isFinite : EF → Bool
  | .fin _ => true
  | _ => false

/-- IEEE negation. -/
def neg : EF → EF
  | .fin q => .fin (-q)
  | .pinf => .ninf
  | .ninf => .pinf
  | .nan => .nan

/-- IEEE addition: NaN propagates, and infinities of opposite sign give NaN. -/
def add : EF → EF → EF
  | .nan, _ => .nan
  | .fin a, .fin b => .fin (a + b)
  | .fin _, .pinf => .pinf
  | .fin _, .ninf => .ninf
  | .fin _, .nan => .nan
  | .pinf, .fin _ => .pinf
  | .pinf, .pinf => .pinf
  | .pinf, .ninf => .nan
  | .pinf, .nan => .nan
  | .ninf, .fin _ => .ninf
  | .ninf, .pinf => .nan
  | .ninf, .ninf => .ninf
  | .ninf, .nan => .nan

/-- IEEE subtraction. -/
def sub (a b : EF) : EF := a.add b.neg

/-- Multiplication by a finite rational constant: zero times an infinity is
NaN, otherwise infinities keep or flip sign. -/
def scale (c : ℚ) : EF → EF
  | .fin q => .fin (c * q)
  | .pinf => if 0 < c then .pinf else if c < 0 then .ninf else .nan
  | .ninf => if 0 < c then .ninf else if c < 0 then .pinf else .nan
  | .nan => .nan

/-- The test the source uses to detect inf or NaN: (x) - (x) == 0, which is
true exactly when x is finite. -/
def selfSubZero (x : EF) : Bool := x.sub x == EF.fin 0

theorem selfSubZero_eq_isFinite (x : EF) : x.selfSubZero = x.isFinite := by
  cases x <;> simp [selfSubZero, sub, add, neg, isFinite]

@[simp] theorem selfSubZero_fin (q : ℚ) : (EF.fin q).selfSubZero = true := by
  simp [selfSubZero, sub, add, neg]

@[simp] theorem selfSubZero_pinf : EF.pinf.selfSubZero = false := rfl

@[simp] theorem selfSubZero_ninf : EF.ninf.selfSubZero = false := rfl

@[simp] theorem selfSubZero_nan : EF.nan.selfSubZero = false := rfl

@[simp] theorem scale_fin (c q : ℚ) : EF.scale c (EF.fin q) = EF.fin (c * q) :=
  rfl

@[simp] theorem scale_nan (c : ℚ) : EF.scale c EF.nan = EF.nan := rfl

@[simp] theorem sub_fin (a b : ℚ) :
    EF.sub (EF.fin a) (EF.fin b) = EF.fin (a - b) := by
  simp [sub, add, neg, sub_eq_add_neg]

@[simp] theorem add_fin (a b : ℚ) :
    EF.add (EF.fin a) (EF.fin b) = EF.fin (a + b) := rfl

@[simp] theorem neg_fin (a : ℚ) : EF.neg (EF.fin a) = EF.fin (-a) := rfl

end EF

/-- ChainTrainingOptions from chain-training.h (silence_pdfs_str is parsed
by external callers into the silence index vector and is not consumed by the
drivers themselves, so it is omitted here). -/
structure ChainTrainingOptions where
  l2_regularize : ℚ
  leaky_hmm_coefficient : ℚ
  xent_regularize : ℚ
  use_smbr_objective : Bool
  exclude_silence : Bool
  one_silence_class : Bool
  mmi_factor : ℚ
  smbr_factor : ℚ
  norm_regularize : Bool

/-- The fields of the Supervision object read by the drivers. -/
structure Supervision where
  weight : ℚ
  num_sequences : ℕ
  frames_per_sequence : ℕ
  e2e : Bool

/-- The weight out-parameter value:
supervision.weight * supervision.num_sequences * supervision.frames_per_sequence. -/
def supWeightTotal (sup : Supervision) : ℚ :=
  sup.weight * (sup.num_sequences : ℚ) * (sup.frames_per_sequence : ℚ)

/-- Modelled from the spec: results of the DenominatorComputation object
(chain-denominator.cc is not among the sources).  Forward returns logprob;
Backward(scale, buf) adds scale times deriv into buf and returns ok. -/
structure DenOracle (R P : ℕ) where
  logprob : EF
  deriv : Mat R P
  ok : Bool

/-- Modelled from the spec: results of the compact NumeratorComputation
object (chain-numerator.cc is not among the sources).  Forward returns the
log-likelihood already weighted by supervision.weight; Backward adds the
posterior matrix post scaled by supervision.weight into its argument. -/
structure NumOracle (R P : ℕ) where
  logprob_weighted : EF
  post : Mat R P

/-- Modelled from the spec: results of the GenericNumeratorComputation
object (chain-generic-numerator.cc is not among the sources).  Forward
returns the weighted log-likelihood, which is non-finite when a sequence
graph is unreachable; Backward adds the posterior scaled by
supervision.weight and returns backward_ok. -/
structure GenericNumOracle (R P : ℕ) where
  logprob_weighted : EF
  post : Mat R P
  backward_ok : Bool

/-- Modelled from the spec: results of the DenominatorSmbrComputation object
(chain-denominator-smbr.cc is not among the sources).  ForwardSmbr returns
smbr_objf and writes den_logprob_negated through its out-parameter;
BackwardSmbr(w, buf) adds w times deriv into buf and returns ok. -/
structure SmbrDenOracle (R P : ℕ) where
  smbr_objf : EF
  den_logprob_negated : EF
  deriv : Mat R P
  ok : Bool

/-- Out-parameters of the non-SMBR drivers: objf, l2_term, weight, and the
two optional gradient buffers. -/
structure ChainResult (R P : ℕ) where
  objf : EF
  l2_term : ℚ
  weight : ℚ
  nnet_output_deriv : Option (Mat R P)
  xent_output_deriv : Option (Mat R P)
deriving DecidableEq

/-- Out-parameters of ComputeChainSmbrObjfAndDeriv, together with the
accuracy-posterior matrix the driver hands to DenominatorSmbrComputation. -/
structure SmbrResult (R P : ℕ) where
  objf : EF
  mmi_objf : EF
  l2_term : ℚ
  weight : ℚ
  nnet_output_deriv : Option (Mat R P)
  xent_output_deriv : Option (Mat R P)
  accuracy_posteriors : Mat R P
deriving DecidableEq

/-- The failure condition of the standard (non-e2e) path of
ComputeChainObjfAndDeriv: the computed objf fails the (objf - objf == 0)
test, or the denominator Backward (run only when nnet_output_deriv was
requested) returned false. -/
def chainStdFailed {R P : ℕ} (sup : Supervision) (den : DenOracle R P)
    (num : NumOracle R P) (wantDeriv : Bool) : Bool :=
  !(EF.sub num.logprob_weighted (EF.scale sup.weight den.logprob)).selfSubZero
    || !(if wantDeriv then den.ok else true)

/-- The standard (non-e2e) body of ComputeChainObjfAndDeriv up to and
including the inf/NaN failure handling (everything before the L2
regularizer; l2_term is set by the later step). -/
def chainStdCore {R P : ℕ} (sup : Supervision) (den : DenOracle R P)
    (num : NumOracle R P) (wantDeriv wantXent : Bool) : ChainResult R P :=
  let deriv0 : Option (Mat R P) :=
    if wantDeriv then some (Mat.zero R P) else none
  let den_logprob_weighted := EF.scale sup.weight den.logprob
  let deriv1 := deriv0.map (fun d => d.add (Mat.smul (-sup.weight) den.deriv))
  let xent0 : Option (Mat R P) :=
    if wantXent then some (Mat.zero R P) else none
  let xent1 := xent0.map (fun x => x.add (Mat.smul sup.weight num.post))
  let deriv2 := deriv1.map (fun d => d.add (Mat.smul sup.weight num.post))
  let objf0 := EF.sub num.logprob_weighted den_logprob_weighted
  let weight := supWeightTotal sup
  if chainStdFailed sup den num wantDeriv then
    { objf := EF.fin (-10 * weight), l2_term := 0, weight := weight,
      nnet_output_deriv := deriv2.map (fun _ => Mat.zero R P),
      xent_output_deriv := xent1.map (fun _ => Mat.zero R P) }
  else
    { objf := objf0, l2_term := 0, weight := weight,
      nnet_output_deriv := deriv2, xent_output_deriv := xent1 }

/-- The L2-regularizer epilogue shared by the standard path and the KL
driver: if l2_regularize is zero, l2_term is zero; otherwise l2_term is
-0.5 * (weight * l2_regularize) * TraceMatMat(X, X, kTrans) and
-(weight * l2_regularize) * X is added into nnet_output_deriv. -/
def applyL2 {R P : ℕ} (opts : ChainTrainingOptions) (w : ℚ) (X : Mat R P)
    (st : ChainResult R P) : ChainResult R P :=
  if opts.l2_regularize = 0 then { st with l2_term := 0 }
  else
    let scale := w * opts.l2_regularize
    { st with
      l2_term := -(1 / 2) * scale * Mat.frob X,
      nnet_output_deriv :=
        st.nnet_output_deriv.map (fun d => d.add (Mat.smul (-scale) X)) }

/-- The standard (non-e2e) path of ComputeChainObjfAndDeriv. -/
def computeChainObjfAndDerivStd {R P : ℕ} (opts : ChainTrainingOptions)
    (sup : Supervision) (X : Mat R P) (den : DenOracle R P)
    (num : NumOracle R P) (wantDeriv wantXent : Bool) : ChainResult R P :=
  applyL2 opts sup.weight X (chainStdCore sup den num wantDeriv wantXent)

/-- The numerator_ok flag of ComputeChainObjfAndDerivE2e: first the
finiteness test on the generic numerator forward log-likelihood, then (when
a backward pass is run, into xent_output_deriv or nnet_output_deriv) the
generic numerator backward result. -/
def e2eNumeratorOk {R P : ℕ} (gnum : GenericNumOracle R P)
    (wantDeriv wantXent : Bool) : Bool :=
  let ok0 := gnum.logprob_weighted.selfSubZero
  if wantXent && ok0 then gnum.backward_ok
  else if wantDeriv && ok0 then gnum.backward_ok
  else ok0

/-- The denominator_ok flag of ComputeChainObjfAndDerivE2e (true when no
backward pass was requested). -/
def e2eDenominatorOk {R P : ℕ} (den : DenOracle R P) (wantDeriv : Bool) :
    Bool :=
  if wantDeriv then den.ok else true

/-- The failure condition of ComputeChainObjfAndDerivE2e: non-finite objf,
or denominator backward failure, or generic numerator forward/backward
failure. -/
def e2eFailed {R P : ℕ} (sup : Supervision) (den : DenOracle R P)
    (gnum : GenericNumOracle R P) (wantDeriv wantXent : Bool) : Bool :=
  !(EF.sub gnum.logprob_weighted
      (EF.scale sup.weight den.logprob)).selfSubZero
    || !(e2eDenominatorOk den wantDeriv)
    || !(e2eNumeratorOk gnum wantDeriv wantXent)

/-- ComputeChainObjfAndDerivE2e up to and including the inf/NaN/failure
handling (everything before the L2 regularizer). -/
def chainE2eCore {R P : ℕ} (sup : Supervision) (den : DenOracle R P)
    (gnum : GenericNumOracle R P) (wantDeriv wantXent : Bool) :
    ChainResult R P :=
  let weight := supWeightTotal sup
  let deriv0 : Option (Mat R P) :=
    if wantDeriv then some (Mat.zero R P) else none
  let den_logprob_weighted := EF.scale sup.weight den.logprob
  let deriv1 := deriv0.map (fun d => d.add (Mat.smul (-sup.weight) den.deriv))
  let xent0 : Option (Mat R P) :=
    if wantXent then some (Mat.zero R P) else none
  let ok0 := gnum.logprob_weighted.selfSubZero
  let xent1 :=
    if wantXent && ok0 then
      xent0.map (fun x => x.add (Mat.smul sup.weight gnum.post))
    else xent0
  let deriv2 :=
    if wantXent && ok0 then
      (if wantDeriv then
        deriv1.map (fun d => d.add (Mat.smul sup.weight gnum.post))
      else deriv1)
    else if wantDeriv && ok0 then
      deriv1.map (fun d => d.add (Mat.smul sup.weight gnum.post))
    else deriv1
  let objf0 := EF.sub gnum.logprob_weighted den_logprob_weighted
  if e2eFailed sup den gnum wantDeriv wantXent then
    { objf := EF.fin (-10 * weight), l2_term := 0, weight := weight,
      nnet_output_deriv := deriv2.map (fun _ => Mat.zero R P),
      xent_output_deriv := xent1.map (fun _ => Mat.zero R P) }
  else
    { objf := objf0, l2_term := 0, weight := weight,
      nnet_output_deriv := deriv2, xent_output_deriv := xent1 }

/-- The L2-regularizer epilogue of the e2e path: it runs only when
l2_regularize is nonzero AND the generic numerator succeeded; l2_term was
initialized to zero beforehand. -/
def applyL2E2e {R P : ℕ} (opts : ChainTrainingOptions) (w : ℚ) (X : Mat R P)
    (numerator_ok : Bool) (st : ChainResult R P) : ChainResult R P :=
  if opts.l2_regularize ≠ 0 ∧ numerator_ok = true then
    let scale := w * opts.l2_regularize
    { st with
      l2_term := -(1 / 2) * scale * Mat.frob X,
      nnet_output_deriv :=
        st.nnet_output_deriv.map (fun d => d.add (Mat.smul (-scale) X)) }
  else { st with l2_term := 0 }

/-- ComputeChainObjfAndDerivE2e. -/
def computeChainObjfAndDerivE2e {R P : ℕ} (opts : ChainTrainingOptions)
    (sup : Supervision) (X : Mat R P) (den : DenOracle R P)
    (gnum : GenericNumOracle R P) (wantDeriv wantXent : Bool) :
    ChainResult R P :=
  applyL2E2e opts sup.weight X (e2eNumeratorOk gnum wantDeriv wantXent)
    (chainE2eCore sup den gnum wantDeriv wantXent)

/-- ComputeChainObjfAndDeriv: dispatches on supervision.e2e. -/
def computeChainObjfAndDeriv {R P : ℕ} (opts : ChainTrainingOptions)
    (sup : Supervision) (X : Mat R P) (den : DenOracle R P)
    (num : NumOracle R P) (gnum : GenericNumOracle R P)
    (wantDeriv wantXent : Bool) : ChainResult R P :=
  if sup.e2e then
    computeChainObjfAndDerivE2e opts sup X den gnum wantDeriv wantXent
  else computeChainObjfAndDerivStd opts sup X den num wantDeriv wantXent

/-- The failure condition of ComputeKLObjfAndDeriv. -/
def klFailed {R P : ℕ} (sup : Supervision) (den : DenOracle R P)
    (wantDeriv : Bool) : Bool :=
  !(EF.neg (EF.scale sup.weight den.logprob)).selfSubZero
    || !(if wantDeriv then den.ok else true)

/-- ComputeKLObjfAndDeriv up to and including the failure handling.  In KL
mode the numerator side is the fixed target-posterior matrix; no numerator
log-likelihood is computed anywhere in this driver, which is why it takes no
numerator-forward input. -/
def klCore {R P : ℕ} (sup : Supervision) (targets : Mat R P)
    (den : DenOracle R P) (wantDeriv wantXent : Bool) : ChainResult R P :=
  let deriv0 : Option (Mat R P) :=
    if wantDeriv then some (Mat.zero R P) else none
  let den_logprob_weighted := EF.scale sup.weight den.logprob
  let deriv1 := deriv0.map (fun d => d.add (Mat.smul (-sup.weight) den.deriv))
  let xent1 : Option (Mat R P) :=
    if wantXent then some (Mat.smul sup.weight targets) else none
  let deriv2 := deriv1.map (fun d => d.add (Mat.smul sup.weight targets))
  let objf0 := EF.neg den_logprob_weighted
  let weight := supWeightTotal sup
  if klFailed sup den wantDeriv then
    { objf := EF.fin (-10 * weight), l2_term := 0, weight := weight,
      nnet_output_deriv := deriv2.map (fun _ => Mat.zero R P),
      xent_output_deriv := xent1.map (fun _ => Mat.zero R P) }
  else
    { objf := objf0, l2_term := 0, weight := weight,
      nnet_output_deriv := deriv2, xent_output_deriv := xent1 }

/-- ComputeKLObjfAndDeriv.  The KALDI_ASSERT preconditions (nonempty target
matrix and nnet_output rows equal to num_sequences * frames_per_sequence;
equality of target and output shapes is enforced by typing here) abort the
process when violated, modelled by returning none. -/
def computeKLObjfAndDeriv {R P : ℕ} (opts : ChainTrainingOptions)
    (sup : Supervision) (targets : Mat R P) (X : Mat R P)
    (den : DenOracle R P) (wantDeriv wantXent : Bool) :
    Option (ChainResult R P) :=
  if 0 < R ∧ R = sup.num_sequences * sup.frames_per_sequence then
    some (applyL2 opts sup.weight X (klCore sup targets den wantDeriv wantXent))
  else none

/-- The silence-masking step of ComputeChainSmbrObjfAndDeriv, applied to the
weighted numerator posterior matrix before it is passed to
DenominatorSmbrComputation. -/
def smbrMask {R P : ℕ} (opts : ChainTrainingOptions)
    (silIdx : Option (Fin P → ℤ)) (num_posteriors : Mat R P) : Mat R P :=
  match silIdx with
  | some idx =>
    if opts.exclude_silence then Mat.copyCols num_posteriors idx
    else if opts.one_silence_class then
      let silence_post := Mat.copyCols num_posteriors idx
      let total_silence_post := Mat.rowSum silence_post
      Mat.copyColsFromVec num_posteriors total_silence_post idx
    else num_posteriors
  | none => num_posteriors

/-- The failure condition of ComputeChainSmbrObjfAndDeriv: objf + mmi_objf
fails the finiteness test, or the SMBR denominator backward (run only when
nnet_output_deriv was requested) returned false. -/
def smbrFailed {R P : ℕ} (opts : ChainTrainingOptions) (sup : Supervision)
    (num : NumOracle R P) (sden : SmbrDenOracle R P) (wantDeriv : Bool) :
    Bool :=
  let objf := EF.scale sup.weight sden.smbr_objf
  let num_logprob_weighted := EF.scale opts.mmi_factor num.logprob_weighted
  let mmi_objf :=
    EF.add (EF.scale sup.weight sden.den_logprob_negated) num_logprob_weighted
  let total_objf := EF.add objf mmi_objf
  !total_objf.selfSubZero || !(if wantDeriv then sden.ok else true)

/-- ComputeChainSmbrObjfAndDeriv up to and including the failure handling
(everything before the L2 regularizer).  num_posteriors is the fresh matrix
filled by the numerator backward; when mmi_factor is nonzero the driver
copies it scaled by mmi_factor into nnet_output_deriv (otherwise the buffer
is zeroed just before the SMBR backward), and an unscaled copy goes to
xent_output_deriv.  The silence-masked matrix is what reaches
DenominatorSmbrComputation and is recorded in accuracy_posteriors. -/
def chainSmbrCore {R P : ℕ} (opts : ChainTrainingOptions) (sup : Supervision)
    (num : NumOracle R P) (sden : SmbrDenOracle R P)
    (silIdx : Option (Fin P → ℤ)) (wantDeriv wantXent : Bool) :
    SmbrResult R P :=
  let num_posteriors := Mat.smul sup.weight num.post
  let num_logprob_weighted := EF.scale opts.mmi_factor num.logprob_weighted
  let deriv0 : Option (Mat R P) :=
    if wantDeriv then
      some (if opts.mmi_factor = 0 then Mat.zero R P
            else Mat.smul opts.mmi_factor num_posteriors)
    else none
  let xent0 : Option (Mat R P) :=
    if wantXent then some num_posteriors else none
  let acc := smbrMask opts silIdx num_posteriors
  let deriv1 := deriv0.map (fun d => d.add (Mat.smul sup.weight sden.deriv))
  let objf0 := EF.scale sup.weight sden.smbr_objf
  let mmi0 :=
    EF.add (EF.scale sup.weight sden.den_logprob_negated) num_logprob_weighted
  let weight := supWeightTotal sup
  if smbrFailed opts sup num sden wantDeriv then
    { objf := EF.fin 0, mmi_objf := EF.fin (-opts.mmi_factor * 10 * weight),
      l2_term := 0, weight := weight,
      nnet_output_deriv := deriv1.map (fun _ => Mat.zero R P),
      xent_output_deriv := xent0.map (fun _ => Mat.zero R P),
      accuracy_posteriors := acc }
  else
    { objf := objf0, mmi_objf := mmi0, l2_term := 0, weight := weight,
      nnet_output_deriv := deriv1, xent_output_deriv := xent0,
      accuracy_posteriors := acc }

/-- The L2-regularizer epilogue of the SMBR driver, including the
norm_regularize branch.  The exponential there is transcendental, so it is
taken as an abstract function expQ. -/
def applyL2Smbr {R P : ℕ} (opts : ChainTrainingOptions) (w : ℚ)
    (expQ : ℚ → ℚ) (X : Mat R P) (st : SmbrResult R P) : SmbrResult R P :=
  if opts.l2_regularize = 0 then { st with l2_term := 0 }
  else if opts.norm_regularize = false then
    let scale := w * opts.l2_regularize
    { st with
      l2_term := -(1 / 2) * scale * Mat.frob X,
      nnet_output_deriv :=
        st.nnet_output_deriv.map (fun d => d.add (Mat.smul (-scale) X)) }
  else
    let scale := w * opts.l2_regularize
    let exp_nnet_output := Mat.emap expQ X
    { st with
      l2_term := -scale * Mat.total exp_nnet_output,
      nnet_output_deriv :=
        st.nnet_output_deriv.map
          (fun d => d.add (Mat.smul (-scale) exp_nnet_output)) }

/-- ComputeChainSmbrObjfAndDeriv. -/
def computeChainSmbrObjfAndDeriv {R P : ℕ} (opts : ChainTrainingOptions)
    (sup : Supervision) (X : Mat R P) (num : NumOracle R P)
    (sden : SmbrDenOracle R P) (silIdx : Option (Fin P → ℤ))
    (wantDeriv wantXent : Bool) (expQ : ℚ → ℚ) : SmbrResult R P :=
  applyL2Smbr opts sup.weight expQ X
    (chainSmbrCore opts sup num sden silIdx wantDeriv wantXent)

theorem applyL2_objf {R P : ℕ} (opts : ChainTrainingOptions) (w : ℚ)
    (X : Mat R P) (st : ChainResult R P) :
    (applyL2 opts w X st).objf = st.objf := by
  unfold applyL2; split <;> rfl

theorem applyL2_weight {R P : ℕ} (opts : ChainTrainingOptions) (w : ℚ)
    (X : Mat R P) (st : ChainResult R P) :
    (applyL2 opts w X st).weight = st.weight := by
  unfold applyL2; split <;> rfl

theorem applyL2_xent {R P : ℕ} (opts : ChainTrainingOptions) (w : ℚ)
    (X : Mat R P) (st : ChainResult R P) :
    (applyL2 opts w X st).xent_output_deriv = st.xent_output_deriv := by
  unfold applyL2; split <;> rfl

theorem applyL2E2e_objf {R P : ℕ} (opts : ChainTrainingOptions) (w : ℚ)
    (X : Mat R P) (nok : Bool) (st : ChainResult R P) :
    (applyL2E2e opts w X nok st).objf = st.objf := by
  unfold applyL2E2e; split <;> rfl

theorem applyL2E2e_weight {R P : ℕ} (opts : ChainTrainingOptions) (w : ℚ)
    (X : Mat R P) (nok : Bool) (st : ChainResult R P) :
    (applyL2E2e opts w X nok st).weight = st.weight := by
  unfold applyL2E2e; split <;> rfl

theorem applyL2E2e_xent {R P : ℕ} (opts : ChainTrainingOptions) (w : ℚ)
    (X : Mat R P) (nok : Bool) (st : ChainResult R P) :
    (applyL2E2e opts w X nok st).xent_output_deriv = st.xent_output_deriv := by
  unfold applyL2E2e; split <;> rfl

theorem applyL2Smbr_objf {R P : ℕ} (opts : ChainTrainingOptions) (w : ℚ)
    (expQ : ℚ → ℚ) (X : Mat R P) (st : SmbrResult R P) :
    (applyL2Smbr opts w expQ X st).objf = st.objf := by
  unfold applyL2Smbr; split <;> [rfl; skip]; split <;> rfl

theorem applyL2Smbr_mmi {R P : ℕ} (opts : ChainTrainingOptions) (w : ℚ)
    (expQ : ℚ → ℚ) (X : Mat R P) (st : SmbrResult R P) :
    (applyL2Smbr opts w expQ X st).mmi_objf = st.mmi_objf := by
  unfold applyL2Smbr; split <;> [rfl; skip]; split <;> rfl

theorem applyL2Smbr_weight {R P : ℕ} (opts : ChainTrainingOptions) (w : ℚ)
    (expQ : ℚ → ℚ) (X : Mat R P) (st : SmbrResult R P) :
    (applyL2Smbr opts w expQ X st).weight = st.weight := by
  unfold applyL2Smbr; split <;> [rfl; skip]; split <;> rfl

theorem applyL2Smbr_xent {R P : ℕ} (opts : ChainTrainingOptions) (w : ℚ)
    (expQ : ℚ → ℚ) (X : Mat R P) (st : SmbrResult R P) :
    (applyL2Smbr opts w expQ X st).xent_output_deriv = st.xent_output_deriv := by
  unfold applyL2Smbr; split <;> [rfl; skip]; split <;> rfl

theorem applyL2Smbr_acc {R P : ℕ} (opts : ChainTrainingOptions) (w : ℚ)
    (expQ : ℚ → ℚ) (X : Mat R P) (st : SmbrResult R P) :
    (applyL2Smbr opts w expQ X st).accuracy_posteriors =
      st.accuracy_posteriors := by
  unfold applyL2Smbr; split <;> [rfl; skip]; split <;> rfl

theorem chainStdCore_weight {R P : ℕ} (sup : Supervision) (den : DenOracle R P)
    (num : NumOracle R P) (wd wx : Bool) :
    (chainStdCore sup den num wd wx).weight = supWeightTotal sup := by
  simp only [chainStdCore]; split <;> rfl

theorem chainE2eCore_weight {R P : ℕ} (sup : Supervision) (den : DenOracle R P)
    (gnum : GenericNumOracle R P) (wd wx : Bool) :
    (chainE2eCore sup den gnum wd wx).weight = supWeightTotal sup := by
  simp only [chainE2eCore]; split <;> rfl

theorem klCore_weight {R P : ℕ} (sup : Supervision) (targets : Mat R P)
    (den : DenOracle R P) (wd wx : Bool) :
    (klCore sup targets den wd wx).weight = supWeightTotal sup := by
  simp only [klCore]; split <;> rfl

theorem chainSmbrCore_weight {R P : ℕ} (opts : ChainTrainingOptions)
    (sup : Supervision) (num : NumOracle R P) (sden : SmbrDenOracle R P)
    (silIdx : Option (Fin P → ℤ)) (wd wx : Bool) :
    (chainSmbrCore opts sup num sden silIdx wd wx).weight = supWeightTotal sup := by
  simp only [chainSmbrCore]; split <;> rfl

/-- Options with all fields at their chain-training.h defaults. -/
def exOpts : ChainTrainingOptions :=
  { l2_regularize := 0, leaky_hmm_coefficient := 1 / 100000,
    xent_regularize := 0, use_smbr_objective := false,
    exclude_silence := false, one_silence_class := false,
    mmi_factor := 0, smbr_factor := 1, norm_regularize := false }

/-- Default options with a nonzero L2 coefficient. -/
def exOptsL2 : ChainTrainingOptions := { exOpts with l2_regularize := 1 }

/-- A one-frame one-sequence supervision of weight 1. -/
def exSup : Supervision :=
  { weight := 1, num_sequences := 1, frames_per_sequence := 1, e2e := false }

/-- A 1-by-1 score matrix with entry 1. -/
def exX : Mat 1 1 := fun _ _ => 1

/-- A successful denominator computation with log-likelihood 0. -/
def exDenOk : DenOracle 1 1 :=
  { logprob := EF.fin 0, deriv := Mat.zero 1 1, ok := true }

/-- A denominator computation whose backward pass reports failure. -/
def exDenBad : DenOracle 1 1 :=
  { logprob := EF.fin 0, deriv := Mat.zero 1 1, ok := false }

/-- A successful compact numerator computation. -/
def exNum : NumOracle 1 1 :=
  { logprob_weighted := EF.fin 0, post := Mat.zero 1 1 }

/-- A successful generic numerator computation. -/
def exGnum : GenericNumOracle 1 1 :=
  { logprob_weighted := EF.fin 0, post := Mat.zero 1 1, backward_ok := true }

/-- A generic numerator computation whose forward log-likelihood is NaN
(an unreachable sequence graph). -/
def exGnumBad : GenericNumOracle 1 1 :=
  { logprob_weighted := EF.nan, post := Mat.zero 1 1, backward_ok := true }

/-- A successful SMBR denominator computation. -/
def exSden : SmbrDenOracle 1 1 :=
  { smbr_objf := EF.fin 0, den_logprob_negated := EF.fin 0,
    deriv := Mat.zero 1 1, ok := true }

/-- An SMBR denominator computation whose backward pass reports failure. -/
def exSdenBad : SmbrDenOracle 1 1 :=
  { smbr_objf := EF.fin 0, den_logprob_negated := EF.fin 0,
    deriv := Mat.zero 1 1, ok := false }

/-- The result of the KL driver on the concrete witness inputs. -/
def exKLresult : ChainResult 1 1 :=
  applyL2 exOpts exSup.weight exX (klCore exSup exX exDenOk true true)

/-- Claim C1: in ComputeChainObjfAndDeriv (standard path, modelled by
chainStdCore/computeChainObjfAndDerivStd) and in ComputeChainObjfAndDerivE2e,
if the computed objf is not finite, or the denominator backward returned
false, or (e2e) the generic numerator forward/backward failed, then the
failure-handling step sets both provided gradient buffers to zero,
substitutes objf = -10 * weight, and the driver still returns a result
(the model functions are total). -/
theorem C1_failure_handling {R P : ℕ} (opts : ChainTrainingOptions)
    (sup : Supervision) (X : Mat R P) (den : DenOracle R P)
    (num : NumOracle R P) (gnum : GenericNumOracle R P) (wd wx : Bool)
    (hstd : chainStdFailed sup den num wd = true)
    (he2e : e2eFailed sup den gnum wd wx = true) :
    ((chainStdCore sup den num wd wx).nnet_output_deriv =
        (if wd then some (Mat.zero R P) else none) ∧
      (chainStdCore sup den num wd wx).xent_output_deriv =
        (if wx then some (Mat.zero R P) else none) ∧
      (computeChainObjfAndDerivStd opts sup X den num wd wx).objf =
        EF.fin (-10 * supWeightTotal sup)) ∧
    ((chainE2eCore sup den gnum wd wx).nnet_output_deriv =
        (if wd then some (Mat.zero R P) else none) ∧
      (chainE2eCore sup den gnum wd wx).xent_output_deriv =
        (if wx then some (Mat.zero R P) else none) ∧
      (computeChainObjfAndDerivE2e opts sup X den gnum wd wx).objf =
        EF.fin (-10 * supWeightTotal sup)) := by
  unfold computeChainObjfAndDerivStd computeChainObjfAndDerivE2e
  rw [applyL2_objf, applyL2E2e_objf]
  cases hg : gnum.logprob_weighted.selfSubZero <;> cases wd <;> cases wx <;>
    simp [chainStdCore, chainE2eCore, hstd, he2e, hg]

/-- Witness for C1 at a concrete failing input (denominator backward
failure with gradient buffers requested). -/
theorem C1_failure_handling_witness :
    chainStdFailed exSup exDenBad exNum true = true ∧
    e2eFailed exSup exDenBad exGnum true true = true ∧
    (computeChainObjfAndDerivStd exOpts exSup exX exDenBad exNum true true).objf =
      EF.fin (-10 * supWeightTotal exSup) ∧
    (chainE2eCore exSup exDenBad exGnum true true).nnet_output_deriv =
      some (Mat.zero 1 1) :=
  ⟨by simp [chainStdFailed, exDenBad],
    by simp [e2eFailed, e2eDenominatorOk, exDenBad],
    (C1_failure_handling exOpts exSup exX exDenBad exNum exGnum true true
      (by simp [chainStdFailed, exDenBad])
      (by simp [e2eFailed, e2eDenominatorOk, exDenBad])).1.2.2,
    by
      have h := (C1_failure_handling exOpts exSup exX exDenBad exNum exGnum
        true true (by simp [chainStdFailed, exDenBad])
        (by simp [e2eFailed, e2eDenominatorOk, exDenBad])).2.1
      simpa using h⟩

/-- Claim C2: every driver writes
weight = supervision.weight * supervision.num_sequences *
supervision.frames_per_sequence through its weight out-parameter. -/
theorem C2_weight {R P : ℕ} (opts : ChainTrainingOptions) (sup : Supervision)
    (X targets : Mat R P) (den : DenOracle R P) (num : NumOracle R P)
    (gnum : GenericNumOracle R P) (sden : SmbrDenOracle R P)
    (silIdx : Option (Fin P → ℤ)) (wd wx : Bool) (expQ : ℚ → ℚ)
    (stKL : ChainResult R P)
    (hkl : computeKLObjfAndDeriv opts sup targets X den wd wx = some stKL) :
    (computeChainObjfAndDerivStd opts sup X den num wd wx).weight =
      sup.weight * (sup.num_sequences : ℚ) * (sup.frames_per_sequence : ℚ) ∧
    (computeChainObjfAndDerivE2e opts sup X den gnum wd wx).weight =
      sup.weight * (sup.num_sequences : ℚ) * (sup.frames_per_sequence : ℚ) ∧
    (computeChainSmbrObjfAndDeriv opts sup X num sden silIdx wd wx expQ).weight =
      sup.weight * (sup.num_sequences : ℚ) * (sup.frames_per_sequence : ℚ) ∧
    stKL.weight =
      sup.weight * (sup.num_sequences : ℚ) * (sup.frames_per_sequence : ℚ) := by
  refine ⟨?_, ?_, ?_, ?_⟩
  · rw [computeChainObjfAndDerivStd, applyL2_weight, chainStdCore_weight,
      supWeightTotal]
  · rw [computeChainObjfAndDerivE2e, applyL2E2e_weight, chainE2eCore_weight,
      supWeightTotal]
  · rw [computeChainSmbrObjfAndDeriv, applyL2Smbr_weight,
      chainSmbrCore_weight, supWeightTotal]
  · unfold computeKLObjfAndDeriv at hkl
    split at hkl
    · simp only [Option.some.injEq] at hkl
      rw [← hkl, applyL2_weight, klCore_weight, supWeightTotal]
    · exact absurd hkl (by simp)

/-- Witness for C2 at concrete inputs on which the KL driver's assertions
pass. -/
theorem C2_weight_witness :
    computeKLObjfAndDeriv exOpts exSup exX exX exDenOk true true =
      some exKLresult ∧
    (computeChainObjfAndDerivStd exOpts exSup exX exDenOk exNum true true).weight =
      exSup.weight * (exSup.num_sequences : ℚ) * (exSup.frames_per_sequence : ℚ) ∧
    exKLresult.weight =
      exSup.weight * (exSup.num_sequences : ℚ) * (exSup.frames_per_sequence : ℚ) :=
  ⟨rfl,
    (C2_weight exOpts exSup exX exX exDenOk exNum exGnum exSden none true true
      id exKLresult rfl).1,
    (C2_weight exOpts exSup exX exX exDenOk exNum exGnum exSden none true true
      id exKLresult rfl).2.2.2⟩

/-- Claim C3: when no failure occurs, the standard path of
ComputeChainObjfAndDeriv returns objf = num_logprob_weighted -
supervision.weight * den_logprob, and ComputeKLObjfAndDeriv returns
objf = -(supervision.weight * den_logprob).  The KL model (klCore) takes no
numerator log-likelihood input at all, reflecting that no numerator
log-likelihood term is computed in KL mode. -/
theorem C3_objf {R P : ℕ} (opts : ChainTrainingOptions) (sup : Supervision)
    (X targets : Mat R P) (den : DenOracle R P) (num : NumOracle R P)
    (wd wx : Bool) (stKL : ChainResult R P)
    (hstd : chainStdFailed sup den num wd = false)
    (hklf : klFailed sup den wd = false)
    (hkl : computeKLObjfAndDeriv opts sup targets X den wd wx = some stKL) :
    (computeChainObjfAndDerivStd opts sup X den num wd wx).objf =
      EF.sub num.logprob_weighted (EF.scale sup.weight den.logprob) ∧
    stKL.objf = EF.neg (EF.scale sup.weight den.logprob) := by
  constructor
  · rw [computeChainObjfAndDerivStd, applyL2_objf]
    simp [chainStdCore, hstd]
  · unfold computeKLObjfAndDeriv at hkl
    split at hkl
    · simp only [Option.some.injEq] at hkl
      rw [← hkl, applyL2_objf]
      simp [klCore, hklf]
    · exact absurd hkl (by simp)

/-- Witness for C3 at concrete non-failing inputs. -/
theorem C3_objf_witness :
    chainStdFailed exSup exDenOk exNum true = false ∧
    klFailed exSup exDenOk true = false ∧
    computeKLObjfAndDeriv exOpts exSup exX exX exDenOk true true =
      some exKLresult ∧
    (computeChainObjfAndDerivStd exOpts exSup exX exDenOk exNum true true).objf =
      EF.sub exNum.logprob_weighted (EF.scale exSup.weight exDenOk.logprob) ∧
    exKLresult.objf = EF.neg (EF.scale exSup.weight exDenOk.logprob) :=
  ⟨by simp [chainStdFailed, exDenOk, exNum, exSup],
    by simp [klFailed, exDenOk, exSup],
    rfl,
    (C3_objf exOpts exSup exX exX exDenOk exNum true true exKLresult
      (by simp [chainStdFailed, exDenOk, exNum, exSup])
      (by simp [klFailed, exDenOk, exSup]) rfl).1,
    (C3_objf exOpts exSup exX exX exDenOk exNum true true exKLresult
      (by simp [chainStdFailed, exDenOk, exNum, exSup])
      (by simp [klFailed, exDenOk, exSup]) rfl).2⟩

/-- Claim C4: when no failure occurs, ComputeChainSmbrObjfAndDeriv returns
objf = supervision.weight * smbr_objf and mmi_objf = supervision.weight *
den_logprob_negated + mmi_factor * (numerator forward log-likelihood). -/
theorem C4_smbr_objf {R P : ℕ} (opts : ChainTrainingOptions)
    (sup : Supervision) (X : Mat R P) (num : NumOracle R P)
    (sden : SmbrDenOracle R P) (silIdx : Option (Fin P → ℤ)) (wd wx : Bool)
    (expQ : ℚ → ℚ) (h : smbrFailed opts sup num sden wd = false) :
    (computeChainSmbrObjfAndDeriv opts sup X num sden silIdx wd wx expQ).objf =
      EF.scale sup.weight sden.smbr_objf ∧
    (computeChainSmbrObjfAndDeriv opts sup X num sden silIdx wd wx expQ).mmi_objf =
      EF.add (EF.scale sup.weight sden.den_logprob_negated)
        (EF.scale opts.mmi_factor num.logprob_weighted) := by
  constructor
  · rw [computeChainSmbrObjfAndDeriv, applyL2Smbr_objf]
    simp [chainSmbrCore, h]
  · rw [computeChainSmbrObjfAndDeriv, applyL2Smbr_mmi]
    simp [chainSmbrCore, h]

/-- Witness for C4 at concrete non-failing inputs. -/
theorem C4_smbr_objf_witness :
    smbrFailed exOpts exSup exNum exSden true = false ∧
    (computeChainSmbrObjfAndDeriv exOpts exSup exX exNum exSden none true true
        id).objf = EF.scale exSup.weight exSden.smbr_objf :=
  ⟨by simp [smbrFailed, exOpts, exSup, exNum, exSden],
    (C4_smbr_objf exOpts exSup exX exNum exSden none true true id
      (by simp [smbrFailed, exOpts, exSup, exNum, exSden])).1⟩

/-- Claim C5: on numerical failure in ComputeChainSmbrObjfAndDeriv (objf +
mmi_objf not finite, or the SMBR denominator backward returned false), the
failure-handling step zeroes the provided gradient buffers, the MMI
component default objective is -mmi_factor * 10 * weight, and the driver
still returns a result (objf itself is set to 0). -/
theorem C5_smbr_failure {R P : ℕ} (opts : ChainTrainingOptions)
    (sup : Supervision) (X : Mat R P) (num : NumOracle R P)
    (sden : SmbrDenOracle R P) (silIdx : Option (Fin P → ℤ)) (wd wx : Bool)
    (expQ : ℚ → ℚ) (h : smbrFailed opts sup num sden wd = true) :
    (chainSmbrCore opts sup num sden silIdx wd wx).nnet_output_deriv =
      (if wd then some (Mat.zero R P) else none) ∧
    (chainSmbrCore opts sup num sden silIdx wd wx).xent_output_deriv =
      (if wx then some (Mat.zero R P) else none) ∧
    (computeChainSmbrObjfAndDeriv opts sup X num sden silIdx wd wx expQ).mmi_objf =
      EF.fin (-opts.mmi_factor * 10 * supWeightTotal sup) ∧
    (computeChainSmbrObjfAndDeriv opts sup X num sden silIdx wd wx expQ).objf =
      EF.fin 0 := by
  refine ⟨?_, ?_, ?_, ?_⟩
  · cases wd <;> cases wx <;> simp [chainSmbrCore, h]
  · cases wd <;> cases wx <;> simp [chainSmbrCore, h]
  · rw [computeChainSmbrObjfAndDeriv, applyL2Smbr_mmi]
    simp [chainSmbrCore, h]
  · rw [computeChainSmbrObjfAndDeriv, applyL2Smbr_objf]
    simp [chainSmbrCore, h]

/-- Witness for C5 at a concrete failing input (SMBR denominator backward
failure with the gradient buffer requested). -/
theorem C5_smbr_failure_witness :
    smbrFailed exOpts exSup exNum exSdenBad true = true ∧
    (computeChainSmbrObjfAndDeriv exOpts exSup exX exNum exSdenBad none true
        true id).mmi_objf =
      EF.fin (-exOpts.mmi_factor * 10 * supWeightTotal exSup) :=
  ⟨by simp [smbrFailed, exSdenBad],
    (C5_smbr_failure exOpts exSup exX exNum exSdenBad none true true id
      (by simp [smbrFailed, exSdenBad])).2.2.1⟩

/-- The entrywise-zero matrix is a left unit for matrix addition. -/
@[simp] theorem Mat.zero_add {R P : ℕ} (A : Mat R P) :
    (Mat.zero R P).add A = A := by
  funext r c; simp [Mat.add, Mat.zero]

/-- Options with exclude_silence switched on. -/
def exOptsEx : ChainTrainingOptions := { exOpts with exclude_silence := true }

/-- A silence index vector over two classes: class 0 is silence (-1), class
1 keeps its own index. -/
def exIdx : Fin 2 → ℤ := fun c => if c = 0 then -1 else 1

/-- A 1-by-2 score matrix. -/
def exX12 : Mat 1 2 := fun _ _ => 1

/-- A successful compact numerator computation over two classes. -/
def exNum12 : NumOracle 1 2 :=
  { logprob_weighted := EF.fin 0, post := Mat.zero 1 2 }

/-- A successful SMBR denominator computation over two classes. -/
def exSden12 : SmbrDenOracle 1 2 :=
  { smbr_objf := EF.fin 0, den_logprob_negated := EF.fin 0,
    deriv := Mat.zero 1 2, ok := true }

/-- The result of the KL driver on the concrete witness inputs with a
nonzero L2 coefficient. -/
def exKLresultL2 : ChainResult 1 1 :=
  applyL2 exOptsL2 exSup.weight exX (klCore exSup exX exDenOk true true)

/-- Counterexample to claim C6 as stated: C6 quantifies over every driver,
but in ComputeChainObjfAndDerivE2e with a failed generic numerator,
l2_regularize = 1 and the 1-by-1 score matrix [[1]] of squared Frobenius
norm 1, the returned l2_term is 0 rather than
-0.5 * weight * l2_regularize * frob X = -1/2, because the e2e L2 block is
guarded by numerator_ok. -/
theorem C6_counterexample :
    ¬ ((computeChainObjfAndDerivE2e exOptsL2 exSup exX exDenOk exGnumBad true
          true).l2_term =
        -(1 / 2) * (exSup.weight * exOptsL2.l2_regularize) * Mat.frob exX) := by
  have hnok : e2eNumeratorOk exGnumBad true true = false := by
    simp [e2eNumeratorOk, exGnumBad]
  have hl : (computeChainObjfAndDerivE2e exOptsL2 exSup exX exDenOk exGnumBad
      true true).l2_term = 0 := by
    rw [computeChainObjfAndDerivE2e, hnok, applyL2E2e]
    simp
  have hfrob : Mat.frob exX = 1 := by
    simp [Mat.frob, exX]
  rw [hl, hfrob]
  norm_num [exSup, exOptsL2, exOpts]

/-- Claim C6 as amended: for every driver, when l2_regularize is nonzero --
in the default non-norm-regularize mode for the SMBR driver and, in the e2e
driver, provided the generic numerator succeeded -- the driver returns
l2_term = -0.5 * weight * l2_regularize * frob X and adds
-(weight * l2_regularize) * X into the provided nnet_output_deriv on top of
what the pre-L2 stage produced; and whenever l2_regularize is zero, l2_term
is zero. -/
theorem C6_l2_amended {R P : ℕ} (opts : ChainTrainingOptions)
    (sup : Supervision) (X targets : Mat R P) (den : DenOracle R P)
    (num : NumOracle R P) (gnum : GenericNumOracle R P)
    (sden : SmbrDenOracle R P) (silIdx : Option (Fin P → ℤ)) (wd wx : Bool)
    (expQ : ℚ → ℚ) (stKL : ChainResult R P)
    (hkl : computeKLObjfAndDeriv opts sup targets X den wd wx = some stKL) :
    (opts.l2_regularize ≠ 0 →
      ((computeChainObjfAndDerivStd opts sup X den num wd wx).l2_term =
          -(1 / 2) * (sup.weight * opts.l2_regularize) * Mat.frob X ∧
        (computeChainObjfAndDerivStd opts sup X den num wd wx).nnet_output_deriv =
          (chainStdCore sup den num wd wx).nnet_output_deriv.map
            (fun d => d.add
              (Mat.smul (-(sup.weight * opts.l2_regularize)) X))) ∧
      (stKL.l2_term = -(1 / 2) * (sup.weight * opts.l2_regularize) * Mat.frob X ∧
        stKL.nnet_output_deriv =
          (klCore sup targets den wd wx).nnet_output_deriv.map
            (fun d => d.add
              (Mat.smul (-(sup.weight * opts.l2_regularize)) X))) ∧
      (e2eNumeratorOk gnum wd wx = true →
        (computeChainObjfAndDerivE2e opts sup X den gnum wd wx).l2_term =
          -(1 / 2) * (sup.weight * opts.l2_regularize) * Mat.frob X ∧
        (computeChainObjfAndDerivE2e opts sup X den gnum wd wx).nnet_output_deriv =
          (chainE2eCore sup den gnum wd wx).nnet_output_deriv.map
            (fun d => d.add
              (Mat.smul (-(sup.weight * opts.l2_regularize)) X))) ∧
      (opts.norm_regularize = false →
        (computeChainSmbrObjfAndDeriv opts sup X num sden silIdx wd wx
            expQ).l2_term =
          -(1 / 2) * (sup.weight * opts.l2_regularize) * Mat.frob X ∧
        (computeChainSmbrObjfAndDeriv opts sup X num sden silIdx wd wx
            expQ).nnet_output_deriv =
          (chainSmbrCore opts sup num sden silIdx wd wx).nnet_output_deriv.map
            (fun d => d.add
              (Mat.smul (-(sup.weight * opts.l2_regularize)) X)))) ∧
    (opts.l2_regularize = 0 →
      (computeChainObjfAndDerivStd opts sup X den num wd wx).l2_term = 0 ∧
      stKL.l2_term = 0 ∧
      (computeChainObjfAndDerivE2e opts sup X den gnum wd wx).l2_term = 0 ∧
      (computeChainSmbrObjfAndDeriv opts sup X num sden silIdx wd wx
          expQ).l2_term = 0) := by
  have hklst : stKL = applyL2 opts sup.weight X (klCore sup targets den wd wx) := by
    unfold computeKLObjfAndDeriv at hkl
    split at hkl
    · simp only [Option.some.injEq] at hkl
      exact hkl.symm
    · exact absurd hkl (by simp)
  constructor
  · intro hl2ne
    refine ⟨⟨?_, ?_⟩, ⟨?_, ?_⟩, ?_, ?_⟩
    · simp [computeChainObjfAndDerivStd, applyL2, hl2ne]
    · simp [computeChainObjfAndDerivStd, applyL2, hl2ne]
    · rw [hklst]; simp [applyL2, hl2ne]
    · rw [hklst]; simp [applyL2, hl2ne]
    · intro hnok
      constructor <;> simp [computeChainObjfAndDerivE2e, applyL2E2e, hl2ne, hnok]
    · intro hnorm
      constructor <;>
        simp [computeChainSmbrObjfAndDeriv, applyL2Smbr, hl2ne, hnorm]
  · intro h0
    refine ⟨?_, ?_, ?_, ?_⟩
    · simp [computeChainObjfAndDerivStd, applyL2, h0]
    · rw [hklst]; simp [applyL2, h0]
    · simp [computeChainObjfAndDerivE2e, applyL2E2e, h0]
    · simp [computeChainSmbrObjfAndDeriv, applyL2Smbr, h0]

/-- Witness for the amended C6 with a nonzero L2 coefficient. -/
theorem C6_l2_amended_witness :
    computeKLObjfAndDeriv exOptsL2 exSup exX exX exDenOk true true =
      some exKLresultL2 ∧
    exOptsL2.l2_regularize ≠ 0 ∧
    (computeChainObjfAndDerivStd exOptsL2 exSup exX exDenOk exNum true
        true).l2_term =
      -(1 / 2) * (exSup.weight * exOptsL2.l2_regularize) * Mat.frob exX :=
  ⟨rfl, by norm_num [exOptsL2, exOpts],
    (((C6_l2_amended exOptsL2 exSup exX exX exDenOk exNum exGnum exSden none
        true true id exKLresultL2 rfl).1
      (by norm_num [exOptsL2, exOpts])).1).1⟩

/-- Claim C7: in ComputeChainSmbrObjfAndDeriv with exclude_silence set and a
silence index vector holding -1 at silence columns and i at every other
column i, the numerator posterior matrix passed to the SMBR denominator
computation has every silence column zero and every other column unchanged
(equal to the weighted numerator posterior). -/
theorem C7_exclude_silence {R P : ℕ} (opts : ChainTrainingOptions)
    (sup : Supervision) (X : Mat R P) (num : NumOracle R P)
    (sden : SmbrDenOracle R P) (idx : Fin P → ℤ) (wd wx : Bool) (expQ : ℚ → ℚ)
    (hex : opts.exclude_silence = true)
    (hidx : ∀ c : Fin P, idx c = -1 ∨ idx c = (c : ℤ)) :
    (computeChainSmbrObjfAndDeriv opts sup X num sden (some idx) wd wx
        expQ).accuracy_posteriors =
      fun r c =>
        if idx c = -1 then 0 else Mat.smul sup.weight num.post r c := by
  rw [computeChainSmbrObjfAndDeriv, applyL2Smbr_acc]
  have hacc : (chainSmbrCore opts sup num sden (some idx) wd wx).accuracy_posteriors =
      smbrMask opts (some idx) (Mat.smul sup.weight num.post) := by
    simp only [chainSmbrCore]; split <;> rfl
  rw [hacc]
  simp only [smbrMask, hex, if_true]
  funext r c
  rcases hidx c with h | h
  · simp [Mat.copyCols, h]
  · have hge : (0 : ℤ) ≤ idx c := by rw [h]; exact Int.natCast_nonneg _
    have hlt : idx c < (P : ℤ) := by rw [h]; exact_mod_cast c.isLt
    have hne : idx c ≠ -1 := by omega
    rw [Mat.copyCols, dif_pos ⟨hge, hlt⟩, if_neg hne]
    congr 1
    apply Fin.ext
    simp [h]

/-- Witness for C7 with two classes, class 0 silent. -/
theorem C7_exclude_silence_witness :
    exOptsEx.exclude_silence = true ∧
    (∀ c : Fin 2, exIdx c = -1 ∨ exIdx c = (c : ℤ)) ∧
    (computeChainSmbrObjfAndDeriv exOptsEx exSup exX12 exNum12 exSden12
        (some exIdx) true true id).accuracy_posteriors =
      fun r c =>
        if exIdx c = -1 then 0 else Mat.smul exSup.weight exNum12.post r c :=
  ⟨rfl, by decide,
    C7_exclude_silence exOptsEx exSup exX12 exNum12 exSden12 exIdx true true
      id rfl (by decide)⟩

/-- Claim C8: when xent_output_deriv is requested and no failure occurs, the
standard path of ComputeChainObjfAndDeriv writes into it exactly the
numerator posteriors scaled by supervision.weight, with no denominator and
no L2 contribution mixed in. -/
theorem C8_xent_posteriors {R P : ℕ} (opts : ChainTrainingOptions)
    (sup : Supervision) (X : Mat R P) (den : DenOracle R P)
    (num : NumOracle R P) (wd : Bool)
    (h : chainStdFailed sup den num wd = false) :
    (computeChainObjfAndDerivStd opts sup X den num wd true).xent_output_deriv =
      some (Mat.smul sup.weight num.post) := by
  rw [computeChainObjfAndDerivStd, applyL2_xent]
  cases wd <;> simp [chainStdCore, h]

/-- Witness for C8 at concrete non-failing inputs. -/
theorem C8_xent_posteriors_witness :
    chainStdFailed exSup exDenOk exNum true = false ∧
    (computeChainObjfAndDerivStd exOpts exSup exX exDenOk exNum true
        true).xent_output_deriv = some (Mat.smul exSup.weight exNum.post) :=
  ⟨by simp [chainStdFailed, exDenOk, exNum, exSup],
    C8_xent_posteriors exOpts exSup exX exDenOk exNum true
      (by simp [chainStdFailed, exDenOk, exNum, exSup])⟩

/-- Claim C9: in the e2e path, when the generic numerator fails, the L2
regularizer is skipped entirely -- l2_term stays 0 and nothing is added to
the gradient buffers, which remain zero after the failure substitution --
whereas in the non-e2e path with a failure and a nonzero l2_regularize the
L2 contribution is still applied on top of the zeroed gradient buffer. -/
theorem C9_e2e_l2_skip {R P : ℕ} (opts : ChainTrainingOptions)
    (sup : Supervision) (X : Mat R P) (den : DenOracle R P)
    (num : NumOracle R P) (gnum : GenericNumOracle R P) (wd wx : Bool)
    (hnum : e2eNumeratorOk gnum wd wx = false) :
    (computeChainObjfAndDerivE2e opts sup X den gnum wd wx).l2_term = 0 ∧
    (computeChainObjfAndDerivE2e opts sup X den gnum wd wx).nnet_output_deriv =
      (if wd then some (Mat.zero R P) else none) ∧
    (computeChainObjfAndDerivE2e opts sup X den gnum wd wx).xent_output_deriv =
      (if wx then some (Mat.zero R P) else none) ∧
    (chainStdFailed sup den num wd = true → opts.l2_regularize ≠ 0 →
      (computeChainObjfAndDerivStd opts sup X den num wd wx).nnet_output_deriv =
        (if wd then
          some ((Mat.zero R P).add
            (Mat.smul (-(sup.weight * opts.l2_regularize)) X))
        else none)) := by
  have hfail : e2eFailed sup den gnum wd wx = true := by
    simp [e2eFailed, hnum]
  refine ⟨?_, ?_, ?_, ?_⟩
  · rw [computeChainObjfAndDerivE2e, hnum, applyL2E2e]
    simp
  · rw [computeChainObjfAndDerivE2e, hnum, applyL2E2e]
    cases hg : gnum.logprob_weighted.selfSubZero <;> cases wd <;> cases wx <;>
      simp [chainE2eCore, hfail, hg]
  · rw [computeChainObjfAndDerivE2e, hnum, applyL2E2e]
    cases hg : gnum.logprob_weighted.selfSubZero <;> cases wd <;> cases wx <;>
      simp [chainE2eCore, hfail, hg]
  · intro hstd hl2ne
    rw [computeChainObjfAndDerivStd, applyL2]
    rw [if_neg hl2ne]
    cases wd <;> cases wx <;> simp [chainStdCore, hstd]

/-- Witness for C9 at a concrete input with a failed generic numerator. -/
theorem C9_e2e_l2_skip_witness :
    e2eNumeratorOk exGnumBad true true = false ∧
    (computeChainObjfAndDerivE2e exOptsL2 exSup exX exDenOk exGnumBad true
        true).l2_term = 0 ∧
    (computeChainObjfAndDerivE2e exOptsL2 exSup exX exDenOk exGnumBad true
        true).nnet_output_deriv = some (Mat.zero 1 1) :=
  ⟨by simp [e2eNumeratorOk, exGnumBad],
    (C9_e2e_l2_skip exOptsL2 exSup exX exDenOk exNum exGnumBad true true
      (by simp [e2eNumeratorOk, exGnumBad])).1,
    by
      have h := (C9_e2e_l2_skip exOptsL2 exSup exX exDenOk exNum exGnumBad
        true true (by simp [e2eNumeratorOk, exGnumBad])).2.1
      simpa using h⟩

/-- Claim C10: in ComputeChainSmbrObjfAndDeriv the silence masking only
affects the accuracy posteriors handed to the SMBR denominator computation;
the copy written to xent_output_deriv and the mmi_factor-scaled posterior
contribution put into nnet_output_deriv come from the unmasked weighted
numerator posteriors, since those copies are made before the masking step. -/
theorem C10_mask_scope {R P : ℕ} (opts : ChainTrainingOptions)
    (sup : Supervision) (X : Mat R P) (num : NumOracle R P)
    (sden : SmbrDenOracle R P) (silIdx : Option (Fin P → ℤ)) (wd wx : Bool)
    (expQ : ℚ → ℚ) (h : smbrFailed opts sup num sden wd = false) :
    (computeChainSmbrObjfAndDeriv opts sup X num sden silIdx wd wx
        expQ).xent_output_deriv =
      (if wx then some (Mat.smul sup.weight num.post) else none) ∧
    (chainSmbrCore opts sup num sden silIdx wd wx).nnet_output_deriv =
      (if wd then
        some ((if opts.mmi_factor = 0 then Mat.zero R P
               else Mat.smul opts.mmi_factor
                 (Mat.smul sup.weight num.post)).add
          (Mat.smul sup.weight sden.deriv))
      else none) ∧
    (computeChainSmbrObjfAndDeriv opts sup X num sden silIdx wd wx
        expQ).accuracy_posteriors =
      smbrMask opts silIdx (Mat.smul sup.weight num.post) := by
  refine ⟨?_, ?_, ?_⟩
  · rw [computeChainSmbrObjfAndDeriv, applyL2Smbr_xent]
    cases wd <;> cases wx <;> simp [chainSmbrCore, h]
  · cases wd <;> cases wx <;> simp [chainSmbrCore, h]
  · rw [computeChainSmbrObjfAndDeriv, applyL2Smbr_acc]
    simp only [chainSmbrCore]; split <;> rfl

/-- Witness for C10 with the exclude_silence masking active. -/
theorem C10_mask_scope_witness :
    smbrFailed exOptsEx exSup exNum12 exSden12 true = false ∧
    (computeChainSmbrObjfAndDeriv exOptsEx exSup exX12 exNum12 exSden12
        (some exIdx) true true id).xent_output_deriv =
      some (Mat.smul exSup.weight exNum12.post) :=
  ⟨by simp [smbrFailed, exOptsEx, exOpts, exSup, exNum12, exSden12],
    by
      have h := (C10_mask_scope exOptsEx exSup exX12 exNum12 exSden12
        (some exIdx) true true id
        (by simp [smbrFailed, exOptsEx, exOpts, exSup, exNum12, exSden12])).1
      simpa using h⟩

end ChainTraining
